import Mathlib

/-!
# webview2: a Win32 window hosting a WebView2 browser

A shallow embedding of `webview2.go`, `webview_386.go` and `webview_amd64.go`.

* Pointers to COM objects are `Option Nat` (`none` is the nil pointer), window
  handles and `uintptr` values are natural numbers.
* Whatever Win32 and the WebView2 runtime decide (the handle `CreateWindowEx`
  returns, the result of the loader, what each `GetMessage` call delivers) is
  an explicit input, collected in `World`.
* A function that can panic, exit through `log.Fatalf` or wait forever returns
  `Except Abort _`; a function that calls out returns the calls it made, in
  order, as a `List Call`.
-/

namespace webview2

/-! ## Machine integers -/

/-- Build target of the package: `webview_386.go` or `webview_amd64.go`. -/
inductive Arch
  | i386
  | amd64
  deriving DecidableEq, Repr

/-- Width in bits of `uintptr` on the build target. -/
def Arch.bits : Arch → Nat
  | .i386 => 32
  | .amd64 => 64

/-- Go conversion `int64(res)` of a `uintptr`: the value of `res` (below
`2 ^ bits`) is zero-extended to 64 bits and read as a signed number. -/
def int64 (a : Arch) (res : Nat) : Int :=
  let v := res % 2 ^ a.bits
  if v < 2 ^ 63 then (v : Int) else (v : Int) - 2 ^ 64

/-- Go conversion `uintptr(x)` of an `int32` on a 32-bit target. -/
def uintptrOfInt32 (x : Int) : Nat := (x % 2 ^ 32).toNat

/-- Bit 31 of a result code: the failure bit of a 32-bit HRESULT. -/
def hresultFailed (res : Nat) : Bool := res / 2 ^ 31 % 2 == 1

/-! ## Ways in which a run does not return -/

/-- Reasons for which a call does not return to its caller. -/
inductive Abort
  /-- Run-time panic: invalid memory address or nil pointer dereference
  (also raised by a call through a nil func value). -/
  | nilDeref
  /-- Exit of the process through `log.Fatalf`, with the text of the message. -/
  | fatal (msg : String)
  /-- Blocked for ever in `GetMessage`: no further message arrives. -/
  | blocked
  /-- Read outside the memory the pointer gives access to. -/
  | fault
  /-- Run-time panic of `windows.StringToUTF16Ptr`: the string holds a NUL. -/
  | nulInString
  deriving DecidableEq, Repr

/-! ## Data model -/

/-- Go struct `win.RECT`. -/
structure RECT where
  Left : Int
  Top : Int
  Right : Int
  Bottom : Int
  deriving DecidableEq, Repr

/-- Go struct `_Point`. -/
structure _Point where
  x : Int
  y : Int
  deriving DecidableEq, Repr

/-- A `*uint16`: nil, or the `uint16` cells found from the pointed address
onwards, as far as the memory block reaches. -/
abbrev Utf16Ptr := Option (List Nat)

/-- Calls that leave the package: into Win32, the WebView2 runtime, the log,
and through the message callback. -/
inductive Call
  | GetModuleHandleEx
  | GetSystemMetrics
  | LoadImage
  | RegisterClassEx
  | CreateWindowEx
  | ShowWindow (hwnd : Nat)
  | UpdateWindow (hwnd : Nat)
  | SetFocus (hwnd : Nat)
  | GetCurrentThreadId
  | GetClientRect (hwnd : Nat)
  | PutBounds4 (controller : Nat) (left top right bottom : Nat)
  | PutBoundsPtr (controller : Nat) (bounds : RECT)
  | createCoreWebView2EnvironmentWithOptions (handler : Option Nat)
  | logPrintf (format : String)
  | CreateCoreWebView2Controller (env hwnd : Nat) (handler : Option Nat)
  | ControllerAddRef (controller : Nat)
  | GetCoreWebView2 (controller : Nat)
  | WebviewAddRef (webview : Nat)
  | AddWebMessageReceived (webview : Nat) (handler : Option Nat)
  | AddPermissionRequested (webview : Nat) (handler : Option Nat)
  | AddScriptToExecuteOnDocumentCreated (webview : Nat) (script : String)
  | TryGetWebMessageAsString (args : Nat)
  | msgcb (f : Nat) (s : String)
  | PostWebMessageAsString (sender : Nat) (message : Utf16Ptr)
  | CoTaskMemFree (message : Utf16Ptr)
  deriving DecidableEq, Repr

/-- Go struct `chromiumedge`. The func value `msgcb` is `none` when nil and
otherwise names the function it holds. -/
structure chromiumedge where
  hwnd : Nat
  controller : Option Nat
  webview : Option Nat
  inited : Nat
  envCompleted : Option Nat
  controllerCompleted : Option Nat
  webMessageReceived : Option Nat
  permissionRequested : Option Nat
  msgcb : Option Nat
  deriving DecidableEq, Repr

/-- Go struct `webview`. The interface field `browser` only ever holds the
`*chromiumedge` that `NewWindow` puts there; it is kept by value. -/
structure webview where
  hwnd : Nat
  mainthread : Nat
  browser : chromiumedge
  maxsz : _Point
  minsz : _Point
  deriving DecidableEq, Repr

/-- The four COM handler objects made for a `chromiumedge`. Their constructors
(`newICoreWebView2...Handler`) are declared outside the files at hand; the
pointers they return are taken as given. -/
structure Handlers where
  envCompleted : Option Nat
  controllerCompleted : Option Nat
  webMessageReceived : Option Nat
  permissionRequested : Option Nat
  deriving DecidableEq, Repr

/-- Go `newchromiumedge`: a zero `chromiumedge` with its four handlers set.
No other field is assigned; `msgcb` stays nil. -/
def newchromiumedge (h : Handlers) : chromiumedge :=
  { hwnd := 0
    controller := none
    webview := none
    inited := 0
    envCompleted := h.envCompleted
    controllerCompleted := h.controllerCompleted
    webMessageReceived := h.webMessageReceived
    permissionRequested := h.permissionRequested
    msgcb := none }

/-! ## Decoding a message -/

namespace utf16

/-- Go `unicode/utf16` constant `surr1`. -/
def surr1 : Nat := 0xd800

/-- Go `unicode/utf16` constant `surr2`. -/
def surr2 : Nat := 0xdc00

/-- Go `unicode/utf16` constant `surr3`. -/
def surr3 : Nat := 0xe000

/-- Go `unicode/utf16` constant `surrSelf`. -/
def surrSelf : Nat := 0x10000

/-- Go `unicode/utf16` constant `replacementChar`. -/
def replacementChar : Nat := 0xFFFD

/-- Go `utf16.DecodeRune` on a pair already known to be a surrogate pair. -/
def DecodeRune (r1 r2 : Nat) : Nat :=
  (((r1 - surr1) <<< 10) ||| (r2 - surr2)) + surrSelf

/-- Go `utf16.Decode`: the code points of a UTF-16 sequence, an unpaired
surrogate giving the replacement character. -/
def Decode : List Nat → List Nat
  | [] => []
  | [r] => if r < surr1 ∨ surr3 ≤ r then [r] else [replacementChar]
  | r :: r2 :: rest =>
    if r < surr1 ∨ surr3 ≤ r then r :: Decode (r2 :: rest)
    else if surr1 ≤ r ∧ r < surr2 ∧ surr2 ≤ r2 ∧ r2 < surr3 then
      DecodeRune r r2 :: Decode rest
    else replacementChar :: Decode (r2 :: rest)

end utf16

/-- The loop of `utf16PtrToString` that looks for the NUL terminator: the
number of cells before the first zero cell, `none` when the block ends first. -/
def nulIndex : List Nat → Option Nat
  | [] => none
  | c :: rest => if c % 65536 = 0 then some 0 else (nulIndex rest).map (· + 1)

/-- Go `utf16PtrToString`. -/
def utf16PtrToString (p : Utf16Ptr) : Except Abort String :=
  match p with
  | none => .ok ""
  | some cells =>
    match nulIndex cells with
    | none => .error .fault
    | some n =>
      .ok (String.mk ((utf16.Decode ((cells.take n).map (· % 65536))).map Char.ofNat))

/-! ## Methods of `chromiumedge` -/

/-- Go `(*chromiumedge).Resize`, in its 386 and amd64 versions; `bounds` is
what `GetClientRect` writes. -/
def chromiumedge.Resize (a : Arch) (e : chromiumedge) (bounds : RECT) : List Call :=
  match e.controller with
  | none => []
  | some c =>
    match a with
    | .i386 =>
      [.GetClientRect e.hwnd,
       .PutBounds4 c (uintptrOfInt32 bounds.Left) (uintptrOfInt32 bounds.Top)
         (uintptrOfInt32 bounds.Right) (uintptrOfInt32 bounds.Bottom)]
    | .amd64 => [.GetClientRect e.hwnd, .PutBoundsPtr c bounds]

/-- Whether a string holds a NUL character, on which
`windows.StringToUTF16Ptr` panics. -/
def hasNul (s : String) : Bool := s.data.any (fun c => c.toNat == 0)

/-- Go `(*chromiumedge).Init`. The call goes through `e.webview.vtbl`, a nil
dereference when the webview is nil, and converts the script with
`windows.StringToUTF16Ptr`, which panics on a NUL. Go leaves the order of the
two open; when both apply the nil dereference is reported. -/
def chromiumedge.Init (e : chromiumedge) (script : String) : Except Abort (List Call) :=
  match e.webview with
  | none => .error .nilDeref
  | some w =>
    if hasNul script then .error .nulInString
    else .ok [.AddScriptToExecuteOnDocumentCreated w script]

/-- Go `(*chromiumedge).EnvironmentCompleted`. -/
def chromiumedge.EnvironmentCompleted (a : Arch) (e : chromiumedge) (res : Nat)
    (env : Option Nat) : Except Abort (Nat × List Call) :=
  if int64 a res < 0 then .error (.fatal "Creating environment failed")
  else
    match env with
    | none => .error .nilDeref
    | some p => .ok (0, [.CreateCoreWebView2Controller p e.hwnd e.controllerCompleted])

/-- Go `(*chromiumedge).ControllerCompleted`; `got` is the content of
`e.webview` once `GetCoreWebView2` has returned. -/
def chromiumedge.ControllerCompleted (a : Arch) (e : chromiumedge) (res : Nat)
    (controller : Option Nat) (got : Option Nat) :
    Except Abort (Nat × chromiumedge × List Call) :=
  if int64 a res < 0 then .error (.fatal "Creating controller failed")
  else
    match controller with
    | none => .error .nilDeref
    | some c =>
      match got with
      | none => .error .nilDeref
      | some w =>
        .ok (0, { e with controller := some c, webview := some w, inited := 1 },
          [.ControllerAddRef c, .GetCoreWebView2 c, .WebviewAddRef w,
           .AddWebMessageReceived w e.webMessageReceived,
           .AddPermissionRequested w e.permissionRequested])

/-- Go `(*chromiumedge).MessageReceived`; `got` is the content of the local
`message` once `TryGetWebMessageAsString` has returned. -/
def chromiumedge.MessageReceived (e : chromiumedge) (sender args : Option Nat)
    (got : Utf16Ptr) : Except Abort (Nat × List Call) :=
  match args with
  | none => .error .nilDeref
  | some ar =>
    match utf16PtrToString got with
    | .error x => .error x
    | .ok s =>
      match e.msgcb with
      | none => .error .nilDeref
      | some f =>
        match sender with
        | none => .error .nilDeref
        | some sd =>
          .ok (0, [.TryGetWebMessageAsString ar, .msgcb f s,
                   .PostWebMessageAsString sd got, .CoTaskMemFree got])

/-! ## The wait loop of `Embed` -/

/-- A handler of the `chromiumedge` entered by the WebView2 runtime while a
message is dispatched, with the arguments and out-values of that entry. -/
inductive Callback
  | EnvironmentCompleted (res : Nat) (env : Option Nat)
  | ControllerCompleted (res : Nat) (controller : Option Nat) (got : Option Nat)
  | MessageReceived (sender args : Option Nat) (got : Utf16Ptr)
  deriving DecidableEq, Repr

/-- What one `GetMessage` call of the wait loop delivers: the result 0, or a
message whose dispatch enters the listed handlers in order. A window message
for `wndproc`, or any other message, enters none of them: `wndproc` writes to
no field of the `chromiumedge` and not to the window-context table. -/
inductive Message
  | quit
  | dispatch (callbacks : List Callback)
  deriving DecidableEq, Repr

/-- One handler entered on the `chromiumedge`. -/
def runCallback (a : Arch) (e : chromiumedge) :
    Callback → Except Abort (chromiumedge × List Call)
  | .EnvironmentCompleted res env =>
    match e.EnvironmentCompleted a res env with
    | .error x => .error x
    | .ok (_, cs) => .ok (e, cs)
  | .ControllerCompleted res controller got =>
    match e.ControllerCompleted a res controller got with
    | .error x => .error x
    | .ok (_, e1, cs) => .ok (e1, cs)
  | .MessageReceived sender args got =>
    match e.MessageReceived sender args got with
    | .error x => .error x
    | .ok (_, cs) => .ok (e, cs)

/-- The handlers entered during one `DispatchMessage`, in order. -/
def runCallbacks (a : Arch) : List Callback → chromiumedge →
    Except Abort (chromiumedge × List Call)
  | [], e => .ok (e, [])
  | cb :: rest, e =>
    match runCallback a e cb with
    | .error x => .error x
    | .ok (e1, c1) =>
      match runCallbacks a rest e1 with
      | .error x => .error x
      | .ok (e2, c2) => .ok (e2, c1 ++ c2)

/-- The `for` loop of `(*chromiumedge).Embed`: leave when `inited` is seen
non-zero or when `GetMessage` returns 0, otherwise dispatch and go round. When
no message is left the loop stays in `GetMessage`. -/
def chromiumedge.Embed.loop (a : Arch) : List Message → chromiumedge →
    Except Abort (chromiumedge × List Call)
  | msgs, e =>
    if e.inited ≠ 0 then .ok (e, [])
    else
      match msgs with
      | [] => .error .blocked
      | .quit :: _ => .ok (e, [])
      | .dispatch cbs :: rest =>
        match runCallbacks a cbs e with
        | .error x => .error x
        | .ok (e1, c1) =>
          match chromiumedge.Embed.loop a rest e1 with
          | .error x => .error x
          | .ok (e2, c2) => .ok (e2, c1 ++ c2)

/-- What the operating system and the WebView2 runtime contribute to one call
of `NewWindow`. -/
structure World where
  /-- Result of `GetCurrentThreadId`. -/
  threadID : Nat
  /-- Address of the `webview` allocated by `NewWindow`. -/
  alloc : Nat
  /-- Handle returned by `CreateWindowEx`. -/
  created : Nat
  /-- Whether `createCoreWebView2EnvironmentWithOptions` returns an error. -/
  loaderErr : Bool
  /-- Result code of `createCoreWebView2EnvironmentWithOptions`. -/
  loaderRes : Nat
  /-- What the successive `GetMessage` calls of the wait loop deliver. -/
  messages : List Message
  /-- What `GetClientRect` writes. -/
  clientRect : RECT
  deriving DecidableEq, Repr

/-- The script registered by `Embed` on the webview. -/
def bootstrapScript : String :=
  "window.external=\x7binvoke:s=>window.chrome.webview.postMessage(s)\x7d"

/-- Go `(*chromiumedge).Embed`. The loader
`createCoreWebView2EnvironmentWithOptions` is declared outside the files at
hand: its two results come from `env`. The data path handed to it (executable
name joined to the AppData variable) plays no part in the control flow and is
left out. -/
def chromiumedge.Embed (a : Arch) (e : chromiumedge) (hwnd : Nat) (env : World) :
    Except Abort (Bool × chromiumedge × List Call) :=
  let e0 := { e with hwnd := hwnd }
  let c0 := [Call.createCoreWebView2EnvironmentWithOptions e0.envCompleted]
  if env.loaderErr then
    .ok (false, e0, c0 ++ [.logPrintf "Error calling Webview2Loader: %v"])
  else if env.loaderRes ≠ 0 then
    .ok (false, e0, c0 ++ [.logPrintf "Result: %08x"])
  else
    match chromiumedge.Embed.loop a env.messages e0 with
    | .error x => .error x
    | .ok (e1, c1) =>
      match e1.Init bootstrapScript with
      | .error x => .error x
      | .ok c2 => .ok (true, e1, c0 ++ c1 ++ c2)

/-! ## The window-context table and `webview` -/

/-- The package variables `windowContext` (window handle to the address of a
`webview`) and the `webview` objects on the heap, by address. -/
structure State where
  windowContext : List (Nat × Nat)
  heap : List (Nat × webview)
  deriving DecidableEq, Repr

/-- Go `getWindowContext`; `none` is the nil interface value. -/
def getWindowContext (s : State) (wnd : Nat) : Option Nat :=
  (s.windowContext.find? (fun kv => kv.1 == wnd)).map (fun kv => kv.2)

/-- Go `setWindowContext`. -/
def setWindowContext (s : State) (wnd : Nat) (data : Nat) : State :=
  { s with windowContext := (wnd, data) :: s.windowContext.filter (fun kv => kv.1 != wnd) }

/-- The `webview` at an address. -/
def State.load (s : State) (p : Nat) : Option webview :=
  (s.heap.find? (fun kv => kv.1 == p)).map (fun kv => kv.2)

/-- Write a `webview` at an address. -/
def State.store (s : State) (p : Nat) (w : webview) : State :=
  { s with heap := (p, w) :: s.heap.filter (fun kv => kv.1 != p) }

/-- Go `(*webview).Window`. -/
def webview.Window (w : webview) : Nat := w.hwnd

/-- Go `(*webview).Create` on the `webview` at address `self`. The arguments
`debug` and `window` are not read by the body. -/
def webview.Create (a : Arch) (w : webview) (self : Nat) (_debug : Bool) (_window : Nat)
    (env : World) (s : State) : Except Abort (Bool × webview × State × List Call) :=
  let c0 := [Call.GetModuleHandleEx, .GetSystemMetrics, .GetSystemMetrics, .LoadImage,
    .RegisterClassEx, .CreateWindowEx]
  let w1 := { w with hwnd := env.created }
  let s1 := setWindowContext s w1.hwnd self
  let c1 := [Call.ShowWindow w1.hwnd, .UpdateWindow w1.hwnd, .SetFocus w1.hwnd]
  match w1.browser.Embed a w1.hwnd env with
  | .error x => .error x
  | .ok (false, e1, c2) => .ok (false, { w1 with browser := e1 }, s1, c0 ++ c1 ++ c2)
  | .ok (true, e1, c2) =>
    .ok (true, { w1 with browser := e1 }, s1,
      c0 ++ c1 ++ c2 ++ e1.Resize a env.clientRect)

/-- Go `NewWindow`: the address of the new `webview`, or `none` for nil. -/
def NewWindow (a : Arch) (h : Handlers) (debug : Bool) (window : Nat) (env : World)
    (s : State) : Except Abort (Option Nat × State × List Call) :=
  let w : webview :=
    { hwnd := 0, mainthread := env.threadID, browser := newchromiumedge h,
      maxsz := ⟨0, 0⟩, minsz := ⟨0, 0⟩ }
  match w.Create a env.alloc debug window env s with
  | .error x => .error x
  | .ok (false, w1, s1, cs) => .ok (none, s1.store env.alloc w1, .GetCurrentThreadId :: cs)
  | .ok (true, w1, s1, cs) => .ok (some env.alloc, s1.store env.alloc w1, .GetCurrentThreadId :: cs)

/-- Go `New`. -/
def New (a : Arch) (h : Handlers) (debug : Bool) (env : World) (s : State) :
    Except Abort (Option Nat × State × List Call) :=
  NewWindow a h debug 0 env s

/-! ## Result codes seen by the completion handlers -/

/-- A value that fits in 32 bits is never negative as an `int64`, on either
build target. -/
theorem int64_nonneg_of_lt (a : Arch) (res : Nat) (h : res < 2 ^ 32) : 0 ≤ int64 a res := by
  have h1 : res % 2 ^ a.bits < 2 ^ 63 := by
    have : res % 2 ^ a.bits ≤ res := Nat.mod_le _ _
    omega
  simp only [int64]
  rw [if_pos h1]
  exact Int.ofNat_nonneg _

/-- On the 386 target `int64(res)` is never negative. -/
theorem int64_i386_nonneg (res : Nat) : 0 ≤ int64 .i386 res := by
  have h1 : res % 2 ^ Arch.i386.bits < 2 ^ 63 := by
    have : res % 2 ^ 32 < 2 ^ 32 := Nat.mod_lt _ (by norm_num)
    simp only [Arch.bits]
    omega
  simp only [int64]
  rw [if_pos h1]
  exact Int.ofNat_nonneg _

/-- On the amd64 target `int64(res)` is negative exactly when bit 63 of `res`
is set. -/
theorem int64_amd64_neg_iff (res : Nat) :
    int64 .amd64 res < 0 ↔ 2 ^ 63 ≤ res % 2 ^ 64 := by
  have hlt : res % 2 ^ 64 < 2 ^ 64 := Nat.mod_lt _ (by norm_num)
  simp only [int64, Arch.bits]
  split
  · constructor
    · intro h
      have : (0 : Int) ≤ ((res % 2 ^ 64 : Nat) : Int) := Int.ofNat_nonneg _
      omega
    · intro h
      omega
  · constructor
    · intro _
      omega
    · intro _
      have : ((res % 2 ^ 64 : Nat) : Int) < 2 ^ 64 := by exact_mod_cast hlt
      omega

/-- A result code with bit 31 clear and nothing above bit 31 set lets
`EnvironmentCompleted` go on: it asks for the controller and returns 0. -/
theorem EnvironmentCompleted_proceeds (a : Arch) (e : chromiumedge) (res env : Nat)
    (h : res < 2 ^ 32) :
    e.EnvironmentCompleted a res (some env) =
      .ok (0, [.CreateCoreWebView2Controller env e.hwnd e.controllerCompleted]) := by
  have h0 : ¬ int64 a res < 0 := not_lt.mpr (int64_nonneg_of_lt a res h)
  simp [chromiumedge.EnvironmentCompleted, h0]

/-- C5, at the result code 0x80004005 (E_FAIL, bit 31 set, zero-extended to
`uintptr`): on both build targets `EnvironmentCompleted` does not take its
fatal branch but asks for the controller and returns 0, and
`ControllerCompleted` does not take its fatal branch but stores the controller
and the webview, sets `inited` and returns 0. -/
theorem completed_handlers_accept_failed_hresult (a : Arch) (e : chromiumedge)
    (env controller view : Nat) :
    hresultFailed 0x80004005 = true ∧
    0 ≤ int64 a 0x80004005 ∧
    e.EnvironmentCompleted a 0x80004005 (some env) =
      .ok (0, [.CreateCoreWebView2Controller env e.hwnd e.controllerCompleted]) ∧
    e.ControllerCompleted a 0x80004005 (some controller) (some view) =
      .ok (0, { e with controller := some controller, webview := some view, inited := 1 },
        [.ControllerAddRef controller, .GetCoreWebView2 controller, .WebviewAddRef view,
         .AddWebMessageReceived view e.webMessageReceived,
         .AddPermissionRequested view e.permissionRequested]) := by
  have h32 : (0x80004005 : Nat) < 2 ^ 32 := by norm_num
  have h0 : ¬ int64 a 0x80004005 < 0 := not_lt.mpr (int64_nonneg_of_lt a _ h32)
  refine ⟨by decide, int64_nonneg_of_lt a _ h32, ?_, ?_⟩
  · simp [chromiumedge.EnvironmentCompleted, h0]
  · simp [chromiumedge.ControllerCompleted, h0]

/-! ## Messages from the page -/

/-- A buffer with a NUL cell in range is decoded: `utf16PtrToString` returns
the string of the cells before the first NUL. -/
theorem utf16PtrToString_of_nul (m : List Nat) (n : Nat) (hn : nulIndex m = some n) :
    utf16PtrToString (some m) =
      .ok (String.mk ((utf16.Decode ((m.take n).map (· % 65536))).map Char.ofNat)) := by
  simp only [utf16PtrToString, hn]

/-- With a message callback set, non-nil `sender` and `args`, and a buffer
that `utf16PtrToString` decodes to `str`, `MessageReceived` asks for the
message, calls the callback once with `str`, posts the same buffer back, frees
it and returns 0. -/
theorem MessageReceived_with_callback (e : chromiumedge) (f sd ar : Nat) (m : List Nat)
    (str : String) (hcb : e.msgcb = some f) (hs : utf16PtrToString (some m) = .ok str) :
    e.MessageReceived (some sd) (some ar) (some m) =
      .ok (0, [.TryGetWebMessageAsString ar, .msgcb f str,
               .PostWebMessageAsString sd (some m), .CoTaskMemFree (some m)]) := by
  simp only [chromiumedge.MessageReceived, hs, hcb]

/-- Instance of `MessageReceived_with_callback`: the buffer "hi" followed by
NUL. -/
theorem MessageReceived_with_callback_witness :
    ({ newchromiumedge ⟨none, none, none, none⟩ with msgcb := some 7 }).MessageReceived
        (some 1) (some 2) (some [104, 105, 0]) =
      .ok (0, [.TryGetWebMessageAsString 2, .msgcb 7 "hi",
               .PostWebMessageAsString 1 (some [104, 105, 0]),
               .CoTaskMemFree (some [104, 105, 0])]) :=
  MessageReceived_with_callback _ 7 1 2 [104, 105, 0] "hi" rfl rfl

/-- C3, on a `chromiumedge` as `newchromiumedge` builds it: `msgcb` is nil, so
`MessageReceived` never returns, whatever the sender, the arguments and the
payload. For the payload "hi" followed by NUL the string is decoded, and the
call through `msgcb` is a nil dereference: no callback runs, nothing is posted
back and 0 is not returned. -/
theorem MessageReceived_newchromiumedge_never_returns (h : Handlers)
    (sender args : Option Nat) (got : Utf16Ptr) :
    (newchromiumedge h).msgcb = none ∧
    (∀ r, (newchromiumedge h).MessageReceived sender args got ≠ .ok r) ∧
    utf16PtrToString (some [104, 105, 0]) = .ok "hi" ∧
    (newchromiumedge h).MessageReceived (some 1) (some 2) (some [104, 105, 0]) =
      .error .nilDeref := by
  refine ⟨rfl, ?_, ?_, ?_⟩
  · intro r
    simp only [chromiumedge.MessageReceived, newchromiumedge]
    cases args with
    | none => simp
    | some ar =>
      cases utf16PtrToString got with
      | error x => simp
      | ok str => simp
  · rfl
  · rfl

/-! ## The wait loop and the bootstrap script -/

/-- Initialisation is complete: `inited` is set and the webview is there. -/
def chromiumedge.Ready (e : chromiumedge) : Prop := e.inited ≠ 0 ∧ e.webview ≠ none

/-- A webview is only ever present together with a set `inited`. -/
def chromiumedge.Consistent (e : chromiumedge) : Prop := e.webview ≠ none → e.inited ≠ 0

theorem runCallback_consistent (a : Arch) (e e1 : chromiumedge) (cb : Callback)
    (cs : List Call) (hc : e.Consistent) (h : runCallback a e cb = .ok (e1, cs)) :
    e1.Consistent := by
  cases cb with
  | EnvironmentCompleted res env =>
    simp only [runCallback] at h
    split at h
    · cases h
    · cases h
      exact hc
  | ControllerCompleted res controller got =>
    simp only [runCallback] at h
    split at h
    · cases h
    · rename_i r e2 cs2 heq
      cases h
      simp only [chromiumedge.ControllerCompleted] at heq
      split at heq
      · cases heq
      · split at heq
        · cases heq
        · split at heq
          · cases heq
          · cases heq
            intro _
            simp
  | MessageReceived sender args got =>
    simp only [runCallback] at h
    split at h
    · cases h
    · cases h
      exact hc

theorem runCallbacks_consistent (a : Arch) (cbs : List Callback) :
    ∀ (e e1 : chromiumedge) (cs : List Call), e.Consistent →
      runCallbacks a cbs e = .ok (e1, cs) → e1.Consistent := by
  induction cbs with
  | nil =>
    intro e e1 cs hc h
    simp only [runCallbacks] at h
    cases h
    exact hc
  | cons cb rest ih =>
    intro e e1 cs hc h
    simp only [runCallbacks] at h
    split at h
    · cases h
    · rename_i e2 c2 heq
      split at h
      · cases h
      · rename_i e3 c3 heq3
        cases h
        exact ih e2 _ c3 (runCallback_consistent a e e2 cb c2 hc heq) heq3

theorem Embed_loop_consistent (a : Arch) (msgs : List Message) :
    ∀ (e e1 : chromiumedge) (cs : List Call), e.Consistent →
      chromiumedge.Embed.loop a msgs e = .ok (e1, cs) → e1.Consistent := by
  induction msgs with
  | nil =>
    intro e e1 cs hc h
    unfold chromiumedge.Embed.loop at h
    split at h
    · cases h
      exact hc
    · cases h
  | cons m rest ih =>
    intro e e1 cs hc h
    unfold chromiumedge.Embed.loop at h
    split at h
    · cases h
      exact hc
    · cases m with
      | quit =>
        cases h
        exact hc
      | dispatch cbs =>
        simp only at h
        split at h
        · cases h
        · rename_i e2 c2 heq
          split at h
          · cases h
          · rename_i e3 c3 heq3
            cases h
            exact ih e2 _ c3 (runCallbacks_consistent a cbs e e2 c2 hc heq) heq3

/-- C4: for every list of messages seen by the wait loop, one in which
`GetMessage` returns 0 before the controller completes included, when `Embed`
on a `chromiumedge` whose webview is not yet there gets through its `Init`
call and returns true, initialisation is complete in the `chromiumedge` it
leaves (`inited` is non-zero and `webview` is non-nil), and the bootstrap
script has been registered on that webview. -/
theorem Embed_true_ready (a : Arch) (e e1 : chromiumedge) (hwnd : Nat) (env : World)
    (cs : List Call) (hw : e.webview = none)
    (h : e.Embed a hwnd env = .ok (true, e1, cs)) :
    e1.Ready ∧
    ∃ w, e1.webview = some w ∧
      Call.AddScriptToExecuteOnDocumentCreated w bootstrapScript ∈ cs := by
  have hc : chromiumedge.Consistent { e with hwnd := hwnd } := by
    intro hne
    exact absurd hw hne
  simp only [chromiumedge.Embed] at h
  split at h
  · cases h
  · split at h
    · cases h
    · split at h
      · cases h
      · rename_i e2 c2 heq
        have hc2 := Embed_loop_consistent a env.messages _ e2 c2 hc heq
        split at h
        · cases h
        · rename_i c3 hinit
          have hwv : e2.webview ≠ none := by
            intro hn
            simp [chromiumedge.Init, hn] at hinit
          obtain ⟨w, hw2⟩ := Option.ne_none_iff_exists'.mp hwv
          have hc3 : Call.AddScriptToExecuteOnDocumentCreated w bootstrapScript ∈ c3 := by
            simp only [chromiumedge.Init, hw2] at hinit
            split at hinit
            · cases hinit
            · cases hinit
              exact List.mem_singleton.mpr rfl
          simp only [Except.ok.injEq, Prod.mk.injEq, true_and] at h
          rw [← h.1, ← h.2]
          exact ⟨⟨hc2 hwv, hwv⟩, w, hw2, List.mem_append_right _ hc3⟩

/-- A start in which the loader succeeds and the runtime enters
`EnvironmentCompleted`, then `ControllerCompleted`, while the first two
messages are dispatched. -/
def World.completing (created : Nat) : World :=
  { threadID := 1
    alloc := 0xc000
    created := created
    loaderErr := false
    loaderRes := 0
    messages := [.dispatch [.EnvironmentCompleted 0 (some 10)],
                 .dispatch [.ControllerCompleted 0 (some 11) (some 12)]]
    clientRect := ⟨0, 0, 640, 480⟩ }

/-- Instance of `Embed_true_ready`: a start in which the controller
completes. -/
theorem Embed_true_ready_witness :
    ∃ e1 cs, (newchromiumedge ⟨some 1, some 2, some 3, some 4⟩).Embed .amd64 0x5678
        (World.completing 0x5678) = .ok (true, e1, cs) ∧
      (e1.Ready ∧
        ∃ w, e1.webview = some w ∧
          Call.AddScriptToExecuteOnDocumentCreated w bootstrapScript ∈ cs) :=
  ⟨_, _, rfl, Embed_true_ready .amd64 (newchromiumedge ⟨some 1, some 2, some 3, some 4⟩) _
    0x5678 (World.completing 0x5678) _ rfl rfl⟩

/-- A wait loop that dispatches one window message (entering no handler of
the `chromiumedge`) and then sees `GetMessage` return 0, before the controller
has completed: the loop is left with `inited` still 0 and `e.webview` still
nil, `Embed` goes on to its `Init` call in that state, the call dereferences
the nil webview, and `Embed` panics: it does not return true. -/
theorem Embed_quit_before_controller_completes (a : Arch) (h : Handlers) (hwnd : Nat)
    (env : World) (rest : List Message) :
    chromiumedge.Embed.loop a (.dispatch [] :: .quit :: rest)
        { newchromiumedge h with hwnd := hwnd } =
      .ok ({ newchromiumedge h with hwnd := hwnd }, []) ∧
    ({ newchromiumedge h with hwnd := hwnd } : chromiumedge).inited = 0 ∧
    ({ newchromiumedge h with hwnd := hwnd } : chromiumedge).webview = none ∧
    ({ newchromiumedge h with hwnd := hwnd } : chromiumedge).Init bootstrapScript =
      .error .nilDeref ∧
    (newchromiumedge h).Embed a hwnd
        { env with loaderErr := false, loaderRes := 0,
                   messages := .dispatch [] :: .quit :: rest } =
      .error .nilDeref := by
  refine ⟨?_, rfl, rfl, rfl, ?_⟩
  · unfold chromiumedge.Embed.loop
    unfold chromiumedge.Embed.loop
    simp [newchromiumedge, runCallbacks]
  · unfold chromiumedge.Embed chromiumedge.Embed.loop
    unfold chromiumedge.Embed.loop
    simp [newchromiumedge, chromiumedge.Init, runCallbacks]

/-- On the amd64 target a result code with bit 63 set is taken for a failure
by `EnvironmentCompleted`, also when bit 31, the failure bit of the HRESULT,
is clear. -/
theorem EnvironmentCompleted_amd64_bit63 (e : chromiumedge) (env : Option Nat) :
    hresultFailed (2 ^ 63) = false ∧
    e.EnvironmentCompleted .amd64 (2 ^ 63) env =
      .error (.fatal "Creating environment failed") := by
  have h0 : int64 .amd64 (2 ^ 63) < 0 := by
    rw [int64_amd64_neg_iff]
    norm_num
  refine ⟨by decide, ?_⟩
  simp only [chromiumedge.EnvironmentCompleted]
  rw [if_pos h0]

/-! ## `New` and `NewWindow` -/

/-- The table lookup right after `setWindowContext` gives the stored value. -/
theorem getWindowContext_setWindowContext (s : State) (wnd data : Nat) :
    getWindowContext (setWindowContext s wnd data) wnd = some data := by
  simp [getWindowContext, setWindowContext]

/-- Storing a `webview` leaves the window-context table as it is. -/
theorem getWindowContext_store (s : State) (p : Nat) (w : webview) (wnd : Nat) :
    getWindowContext (s.store p w) wnd = getWindowContext s wnd := rfl

/-- Loading from an address right after a store gives the stored `webview`. -/
theorem load_store (s : State) (p : Nat) (w : webview) : (s.store p w).load p = some w := by
  simp [State.load, State.store]

/-- The body of `NewWindow` never reads its `window` argument. -/
theorem NewWindow_window_unused (a : Arch) (h : Handlers) (debug : Bool) (window : Nat)
    (env : World) (s : State) :
    NewWindow a h debug window env s = NewWindow a h debug 0 env s := rfl

/-- C2: `New` is `NewWindow` with a nil window. Its outcome follows the
outcome of the call of `Embed` on the new `chromiumedge` with the handle
returned by `CreateWindowEx`: `New` returns nil exactly when `Embed` returns
false, it does not return exactly when `Embed` does not return, and when
`Embed` returns true it returns the new `webview`, whose `Window()` is that
handle and which `getWindowContext` gives for that handle. -/
theorem New_outcome (a : Arch) (h : Handlers) (debug : Bool) (env : World) (s : State) :
    New a h debug env s = NewWindow a h debug 0 env s ∧
    ((∃ s1 cs, New a h debug env s = .ok (none, s1, cs)) ↔
      ∃ e1 cs, (newchromiumedge h).Embed a env.created env = .ok (false, e1, cs)) ∧
    (∀ x, New a h debug env s = .error x ↔
      (newchromiumedge h).Embed a env.created env = .error x) ∧
    (∀ e1 cs, (newchromiumedge h).Embed a env.created env = .ok (true, e1, cs) →
      ∃ s1 cs1, New a h debug env s = .ok (some env.alloc, s1, cs1) ∧
        (s1.load env.alloc).map webview.Window = some env.created ∧
        getWindowContext s1 env.created = some env.alloc) := by
  refine ⟨rfl, ?_, ?_, ?_⟩
  · simp only [New, NewWindow, webview.Create]
    cases hE : (newchromiumedge h).Embed a env.created env with
    | error x => simp
    | ok r =>
      obtain ⟨b, e1, cs⟩ := r
      cases b <;> simp
  · intro x
    simp only [New, NewWindow, webview.Create]
    cases hE : (newchromiumedge h).Embed a env.created env with
    | error y => simp
    | ok r =>
      obtain ⟨b, e1, cs⟩ := r
      cases b <;> simp
  · intro e1 cs hE
    simp only [New, NewWindow, webview.Create, hE]
    refine ⟨_, _, rfl, ?_, ?_⟩
    · rw [load_store]
      rfl
    · rw [getWindowContext_store, getWindowContext_setWindowContext]

/-- Instance of `New_outcome`: a start in which the controller completes. -/
theorem New_outcome_witness :
    ∃ s1 cs1, New .amd64 ⟨some 1, some 2, some 3, some 4⟩ false (World.completing 0x5678)
        ⟨[], []⟩ = .ok (some 0xc000, s1, cs1) ∧
      (s1.load 0xc000).map webview.Window = some 0x5678 ∧
      getWindowContext s1 0x5678 = some 0xc000 :=
  (New_outcome .amd64 ⟨some 1, some 2, some 3, some 4⟩ false (World.completing 0x5678)
    ⟨[], []⟩).2.2.2 _ _ rfl

/-- C1, for the existing window 0x1234 and a start in which `CreateWindowEx`
returns the handle 0x5678 and the controller completes: `NewWindow` returns a
`webview`, and its `Window()` is 0x5678, the handle of the window just
created, not the window it was given. -/
theorem NewWindow_does_not_use_existing_window :
    (0x1234 : Nat) ≠ 0 ∧
    ∃ s1 cs, NewWindow .amd64 ⟨some 1, some 2, some 3, some 4⟩ false 0x1234
        (World.completing 0x5678) ⟨[], []⟩ = .ok (some 0xc000, s1, cs) ∧
      (s1.load 0xc000).map webview.Window = some 0x5678 ∧
      (World.completing 0x5678).created = 0x5678 ∧
      (0x5678 : Nat) ≠ 0x1234 :=
  ⟨by decide, _, _, rfl, rfl, rfl, by decide⟩

end webview2
